import Mathlib

/-!
Verification model of the RustyTiger Discord bot (src/bot.py).

The source is a single Python file.  The parts the claims are about are
embedded shallowly as pure Lean functions:

* colour parsing (`parse_color`, lines 70-81) over the named colour table
  and Python's base-16 integer parsing;
* ticket channel naming and permission-overwrite construction
  (`create_ticket_channel`, lines 185-233);
* transcript generation (`generate_text_transcript`, lines 235-266),
  whose emitted lines are modelled as an algebraic `TranscriptLine`
  carrying exactly the data interpolated into each rendered line;
* the ticket command handlers (`ticket_claim`, `ticket_add`,
  `ticket_remove`, `ticket_close`, lines 471-536), modelled as functions
  from explicit failure-injection environments to a trace of attempted
  external effects plus a result (`Except` models an exception
  propagating out of the handler).

Configuration is the `CONFIG` object from bot.py; every key of the
"tickets" table is optional, and `none` models an absent key.
-/

namespace RustyTiger

/-- The "tickets" table of config.json as read by bot.py; each field is
optional, `none` modelling an absent key (Python `dict.get` miss).  Ids are
modelled as naturals (the source passes them through `int(...)`). -/
structure TicketsCfg where
  categoryId : Option Nat := none
  supportRoleId : Option Nat := none
  transcriptsChannelId : Option Nat := none
  ticketPfx : Option String := none
  deriving Repr, DecidableEq

/-- Process-wide CONFIG: the parts of the configuration object the embedded
functions consult ("tickets" table, brand colour). -/
structure Config where
  tickets : Option TicketsCfg := none
  brandColor : Option String := none
  deriving Repr, DecidableEq

/-- Python falsiness of an optional string: None or the empty string. -/
def strFalsy : Option String → Bool
  | none => true
  | some s => s.data.isEmpty

/-- Python `x or d` on an optional string: `d` when `x` is None or empty. -/
def pyOrStr (x : Option String) (d : String) : String :=
  match x with
  | some s => if s.data.isEmpty then d else s
  | none => d

/-- Python str.strip() with no argument: remove leading and trailing
whitespace (ASCII whitespace here; the configuration strings involved are
ASCII). -/
def pyStrip (s : String) : String :=
  String.mk (((s.data.dropWhile Char.isWhitespace).reverse.dropWhile Char.isWhitespace).reverse)

/-- Python str.lower(), character by character (ASCII case mapping). -/
def strLower (s : String) : String :=
  String.mk (s.data.map Char.toLower)

/-- Python str.lstrip("#"): drop every leading hash character. -/
def lstripHash (s : String) : String :=
  String.mk (s.data.dropWhile (fun c => c == '#'))

/-- Named colour table COLOR_MAP of src/bot.py lines 58-68. -/
def colorMap : List (String × Nat) :=
  [("orange", 0xD97706), ("burnt_orange", 0xCC5500), ("black", 0x111111),
   ("gray", 0x4B5563), ("red", 0xEF4444), ("green", 0x10B981),
   ("blue", 0x3B82F6), ("purple", 0x8B5CF6), ("gold", 0xF59E0B)]

/-- Value of a hexadecimal digit character, as accepted by Python
`int(-, 16)`; `none` on a non-digit. -/
def hexDigitVal (c : Char) : Option Nat :=
  if c.isDigit then some (c.toNat - 48)
  else if 'a' ≤ c && c ≤ 'f' then some (c.toNat - 87)
  else if 'A' ≤ c && c ≤ 'F' then some (c.toNat - 55)
  else none

/-- Remaining digits of a Python base-16 literal after the first digit:
single underscores are permitted between digits only. -/
def hexRest : List Char → Nat → Option Nat
  | [], acc => some acc
  | '_' :: c :: cs, acc =>
    match hexDigitVal c with
    | some d => hexRest cs (16 * acc + d)
    | none => none
  | ['_'], _ => none
  | c :: cs, acc =>
    match hexDigitVal c with
    | some d => hexRest cs (16 * acc + d)
    | none => none

/-- Python `int(s, 16)` on an already-stripped string: optional sign, an
optional 0x/0X marker (an underscore may directly follow it), then hex
digits with single underscores between digits.  `none` exactly when Python
raises ValueError. -/
def pyIntHex (s : String) : Option Int :=
  let signed : Int × List Char :=
    match s.data with
    | '+' :: r => (1, r)
    | '-' :: r => (-1, r)
    | r => (1, r)
  let body : List Char :=
    match signed.2 with
    | '0' :: 'x' :: r => (match r with | '_' :: r2 => r2 | _ => r)
    | '0' :: 'X' :: r => (match r with | '_' :: r2 => r2 | _ => r)
    | r => r
  match body with
  | [] => none
  | c :: cs =>
    match hexDigitVal c with
    | some d => (hexRest cs d).map (fun n => signed.1 * (n : Int))
    | none => none

/-- Truthy branch of parse_color (src/bot.py lines 74-81): strip and
lowercase, look the value up in COLOR_MAP, otherwise strip leading hashes
and parse base-16 masked to 24 bits (Python `& 0xFFFFFF` on a possibly
negative int is its residue mod 2^24), otherwise the orange fallback. -/
def parseColorStr (value : String) : Nat :=
  match List.lookup (strLower (pyStrip value)) colorMap with
  | some c => c
  | none =>
    match pyIntHex (lstripHash (strLower (pyStrip value))) with
    | some i => (i % (16777216 : Int)).toNat
    | none => 0xD97706

/-- parse_color (src/bot.py lines 70-81) with the process-wide brand colour
passed explicitly.  A falsy value defers to the brand colour: the source
makes one recursive call whose argument is then truthy, hence
`parseColorStr`; a falsy brand colour yields COLOR_MAP orange. -/
def parseColor (brandColor : Option String) (value : Option String) : Nat :=
  if strFalsy value then
    match brandColor with
    | some b => if b.data.isEmpty then 0xD97706 else parseColorStr b
    | none => 0xD97706
  else parseColorStr (value.getD "")

lemma lookup_mem_snd {α β : Type} [BEq α] (a : α) (b : β) :
    ∀ l : List (α × β), List.lookup a l = some b → b ∈ l.map Prod.snd := by
  intro l
  induction l with
  | nil => intro h; simp [List.lookup] at h
  | cons p t ih =>
    obtain ⟨k, v⟩ := p
    intro h
    rw [List.lookup] at h
    cases hc : (a == k) with
    | true => rw [hc] at h; simp at h; simp [h]
    | false => rw [hc] at h; simp at h; simp [ih h]

lemma parseColorStr_le (s : String) : parseColorStr s ≤ 0xFFFFFF := by
  unfold parseColorStr
  split
  case _ c hc =>
    have hmem := lookup_mem_snd _ _ _ hc
    have hb : ∀ x ∈ colorMap.map Prod.snd, x ≤ 0xFFFFFF := by decide
    exact hb _ hmem
  case _ =>
    split
    case _ i hi =>
      have h1 : (0 : Int) ≤ i % 16777216 := Int.emod_nonneg i (by decide)
      have h2 : i % 16777216 < 16777216 := Int.emod_lt_of_pos i (by decide)
      omega
    case _ => decide

/-- Claim C8: parse_color yields 0xD97706 for "#D97706", "orange" and
"bogus" (the fallback), and a falsy input parses the brand-configured
default colour. -/
theorem c8_parse_color_samples :
    (∀ b : Option String,
      parseColor b (some "#D97706") = 0xD97706
      ∧ parseColor b (some "orange") = 0xD97706
      ∧ parseColor b (some "bogus") = 0xD97706)
    ∧ (∀ c : String, c.data.isEmpty = false →
        parseColor (some c) none = parseColorStr c) := by
  constructor
  · intro b
    refine ⟨?_, ?_, ?_⟩
    · show parseColorStr ((some "#D97706").getD "") = 0xD97706
      decide
    · show parseColorStr ((some "orange").getD "") = 0xD97706
      decide
    · show parseColorStr ((some "bogus").getD "") = 0xD97706
      decide
  · intro c hc
    simp [parseColor, strFalsy, hc]

/-- Witness for C8 at the concrete brand colour "d97706". -/
theorem c8_parse_color_samples_witness :
    ("d97706" : String).data.isEmpty = false
    ∧ parseColor (some "d97706") none = parseColorStr "d97706" :=
  ⟨rfl, c8_parse_color_samples.2 "d97706" rfl⟩

/-- Claim C9: parse_color is total (a Lean function) and its result always
lies in the 24-bit colour range, for every brand colour and every value:
named colours come from the table, hex parses are masked to the low 24
bits, and anything unparsable falls back to 0xD97706. -/
theorem c9_parse_color_range :
    ∀ b v : Option String, parseColor b v ≤ 0xFFFFFF := by
  intro b v
  unfold parseColor
  cases hf : strFalsy v with
  | true =>
    simp only [if_pos rfl]
    cases b with
    | none => simp
    | some s =>
      by_cases he : s.data.isEmpty = true
      · simp [he]
      · simp [he, parseColorStr_le]
  | false =>
    simp [parseColorStr_le]

/-- Decimal digit character for d < 10. -/
def digitChar (d : Nat) : Char := Char.ofNat (48 + d)

/-- Python format spec {n:04d} for n < 10000 (the only call site passes
`interaction.id % 10000`): exactly four decimal digits, zero padded. -/
def pad4 (n : Nat) : String :=
  String.mk [digitChar (n / 1000 % 10), digitChar (n / 100 % 10),
             digitChar (n / 10 % 10), digitChar (n % 10)]

/-- Effective naming prefix of create_ticket_channel line 202:
`(tcfg.get("ticket_prefix") or "ticket").lower()`. -/
def namePfxOf (t : Option TicketsCfg) : String :=
  strLower (pyOrStr (t.bind fun x => x.ticketPfx) "ticket")

/-- Channel-name construction of create_ticket_channel line 203:
`f"{prefix}-{opener.name[:20].lower()}-{interaction.id % 10000:04d}"`. -/
def ticketChannelName (t : Option TicketsCfg) (openerName : String) (interactionId : Nat) : String :=
  namePfxOf t ++ "-" ++ strLower (String.mk (openerName.data.take 20)) ++ "-"
    ++ pad4 (interactionId % 10000)

/-- Decimal value of a digit string (used to read the disambiguator back). -/
def decValue (s : String) : Nat :=
  s.data.foldl (fun a c => 10 * a + (c.toNat - 48)) 0

lemma digitChar_toNat : ∀ d, d < 10 → (digitChar d).toNat = 48 + d := by decide

lemma digitChar_isDigit : ∀ d, d < 10 → (digitChar d).isDigit = true := by decide

/-- Claim C6: for every opener handle (any length, any case) and every
interaction id, the generated channel name is exactly the lowercased
effective prefix, a dash, the first 20 characters of the handle lowercased,
a dash, and the interaction id modulo 10000 zero-padded to four digits;
the digit block has length four, consists of digits, and reads back as
the id modulo 10000. -/
theorem c6_channel_name (t : Option TicketsCfg) (handle : String) (iid : Nat) :
    ticketChannelName t handle iid
      = namePfxOf t ++ "-" ++ strLower (String.mk (handle.data.take 20)) ++ "-"
        ++ pad4 (iid % 10000)
    ∧ (pad4 (iid % 10000)).data.length = 4
    ∧ (∀ c ∈ (pad4 (iid % 10000)).data, c.isDigit = true)
    ∧ decValue (pad4 (iid % 10000)) = iid % 10000 := by
  refine ⟨rfl, rfl, ?_, ?_⟩
  · intro c hc
    have h1000 : iid % 10000 / 1000 % 10 < 10 := Nat.mod_lt _ (by decide)
    have h100 : iid % 10000 / 100 % 10 < 10 := Nat.mod_lt _ (by decide)
    have h10 : iid % 10000 / 10 % 10 < 10 := Nat.mod_lt _ (by decide)
    have h1 : iid % 10000 % 10 < 10 := Nat.mod_lt _ (by decide)
    simp only [pad4, List.mem_cons, List.not_mem_nil, or_false] at hc
    rcases hc with h | h | h | h <;> subst h
    · exact digitChar_isDigit _ h1000
    · exact digitChar_isDigit _ h100
    · exact digitChar_isDigit _ h10
    · exact digitChar_isDigit _ h1
  · have h1000 : iid % 10000 / 1000 % 10 < 10 := Nat.mod_lt _ (by decide)
    have h100 : iid % 10000 / 100 % 10 < 10 := Nat.mod_lt _ (by decide)
    have h10 : iid % 10000 / 10 % 10 < 10 := Nat.mod_lt _ (by decide)
    have h1 : iid % 10000 % 10 < 10 := Nat.mod_lt _ (by decide)
    have hm : iid % 10000 < 10000 := Nat.mod_lt _ (by decide)
    simp only [decValue, pad4, List.foldl_cons, List.foldl_nil,
      digitChar_toNat _ h1000, digitChar_toNat _ h100,
      digitChar_toNat _ h10, digitChar_toNat _ h1]
    omega

/-- Principals an access rule can be keyed by: the guild default ("everyone")
role, a member, the bot's own service principal, or a guild role. -/
inductive Principal where
  | defaultRole : Principal
  | member : Nat → Principal
  | bot : Principal
  | role : Nat → Principal
  deriving Repr, DecidableEq

/-- A discord.PermissionOverwrite: each permission is tri-state
(granted, denied, or inherited = `none`). -/
structure PermOw where
  viewChannel : Option Bool := none
  sendMessages : Option Bool := none
  readMessageHistory : Option Bool := none
  attachFiles : Option Bool := none
  embedLinks : Option Bool := none
  manageChannels : Option Bool := none
  manageMessages : Option Bool := none
  deriving Repr, DecidableEq

/-- PermissionOverwrite(view_channel=False) for the default role. -/
def denyViewOw : PermOw := { viewChannel := some false }

/-- Overwrite granted to the opener (src/bot.py line 208). -/
def openerOw : PermOw :=
  { viewChannel := some true, sendMessages := some true,
    readMessageHistory := some true, attachFiles := some true,
    embedLinks := some true }

/-- Overwrite granted to guild.me, the service principal (line 209). -/
def botOw : PermOw :=
  { viewChannel := some true, sendMessages := some true,
    readMessageHistory := some true, manageChannels := some true,
    attachFiles := some true, embedLinks := some true }

/-- Overwrite granted to the support role when resolvable (line 212). -/
def supportOw : PermOw :=
  { viewChannel := some true, sendMessages := some true,
    readMessageHistory := some true, attachFiles := some true,
    embedLinks := some true, manageMessages := some true }

/-- Overwrites dict built by create_ticket_channel lines 205-212: deny the
default role view, grant the opener and the bot, then add the support-role
entry when the role resolved. -/
def computeOverwrites (openerId : Nat) (supportRole : Option Nat) : List (Principal × PermOw) :=
  [(Principal.defaultRole, denyViewOw),
   (Principal.member openerId, openerOw),
   (Principal.bot, botOw)]
    ++ (match supportRole with
        | some r => [(Principal.role r, supportOw)]
        | none => [])

/-- Support-role resolution of lines 198-199:
`guild.get_role(int(support_role_id)) if support_role_id else None`. -/
def resolveSupportRole (t : Option TicketsCfg) (getRole : Nat → Option Nat) : Option Nat :=
  (t.bind fun x => x.supportRoleId).bind getRole

/-- First-match lookup in an access rule set (the source builds a dict with
pairwise-distinct keys, so first match equals dict access). -/
def owFor (rules : List (Principal × PermOw)) (p : Principal) : Option PermOw :=
  match rules with
  | [] => none
  | (q, ow) :: rest => if q = p then some ow else owFor rest p

/-- Bundle grants at least view, send and read-message-history. -/
def grantsVSH (ow : PermOw) : Bool :=
  ow.viewChannel == some true && ow.sendMessages == some true
    && ow.readMessageHistory == some true

/-- Claim C2: for every opener and every support-role configuration
(absent, configured-but-unresolvable, configured-and-resolvable), the rule
set denies the default principal view and grants the opener and the
service principal at least view, send and read-message-history. -/
theorem c2_overwrites_invariant (openerId : Nat) (t : Option TicketsCfg)
    (getRole : Nat → Option Nat) :
    (owFor (computeOverwrites openerId (resolveSupportRole t getRole))
        Principal.defaultRole).map PermOw.viewChannel = some (some false)
    ∧ (owFor (computeOverwrites openerId (resolveSupportRole t getRole))
        (Principal.member openerId)).map grantsVSH = some true
    ∧ (owFor (computeOverwrites openerId (resolveSupportRole t getRole))
        Principal.bot).map grantsVSH = some true := by
  rcases resolveSupportRole t getRole with _ | r <;>
    refine ⟨?_, ?_, ?_⟩ <;>
    simp [computeOverwrites, owFor, denyViewOw, openerOw, botOw, grantsVSH]

/-- An embedded-content block of a message (discord Embed): optional title
and description, rendered with `or ""` in the transcript. -/
structure EmbedBlock where
  title : Option String := none
  description : Option String := none
  deriving Repr, DecidableEq

/-- A file attachment; the transcript records its URL. -/
structure Attachment where
  url : String
  deriving Repr, DecidableEq

/-- A channel message as the transcript generator consumes it: author
display string and id, creation time (abstract ordered timestamp), plain
text content, embeds, attachments. -/
structure Message where
  authorName : String
  authorId : Nat
  createdAt : Nat
  content : String := ""
  embeds : List EmbedBlock := []
  attachments : List Attachment := []
  deriving Repr, DecidableEq

/-- A guild text channel; `history` is the message list exactly as the
platform returns it for `history(limit=None, oldest_first=True)`, i.e.
chronological oldest-first. -/
structure TextChannel where
  id : Nat
  name : String
  guildName : String
  createdAt : Nat
  history : List Message := []
  deriving Repr, DecidableEq

/-- One rendered line of generate_text_transcript, as an algebraic value
carrying the data interpolated into it: the three header lines, an embed
summary line `[ts] author (EMBED idx) Title: title\\ndesc`, a text line
`[ts] author: content`, and an attachment line `[ts] author attached: url`. -/
inductive TranscriptLine where
  | headerTitle : String → Nat → String → TranscriptLine
  | headerCreated : Nat → TranscriptLine
  | separator : TranscriptLine
  | embedLine : Nat → String → Nat → String → String → TranscriptLine
  | textLine : Nat → String → String → TranscriptLine
  | attachmentLine : Nat → String → String → TranscriptLine
  deriving Repr, DecidableEq

/-- Author display string `f"{msg.author} ({msg.author.id})"`. -/
def authorStr (m : Message) : String :=
  m.authorName ++ " (" ++ toString m.authorId ++ ")"

/-- Embed summary lines, one per embed block, numbered from the given
index (the source enumerates from 1). -/
def embedLinesFrom (m : Message) : Nat → List EmbedBlock → List TranscriptLine
  | _, [] => []
  | i, e :: es =>
    TranscriptLine.embedLine m.createdAt (authorStr m) i (e.title.getD "") (e.description.getD "")
      :: embedLinesFrom m (i + 1) es

/-- Lines contributed by one message (src/bot.py lines 249-262): embed
summaries if any, then the plain text when non-empty, then one line per
attachment. -/
def msgLines (m : Message) : List TranscriptLine :=
  (if m.embeds.isEmpty then [] else embedLinesFrom m 1 m.embeds)
    ++ (if m.content.data.isEmpty then []
        else [TranscriptLine.textLine m.createdAt (authorStr m) m.content])
    ++ (if m.attachments.isEmpty then []
        else m.attachments.map fun a =>
          TranscriptLine.attachmentLine m.createdAt (authorStr m) a.url)

/-- The three header lines (src/bot.py lines 244-246). -/
def headerLines (ch : TextChannel) : List TranscriptLine :=
  [TranscriptLine.headerTitle ch.name ch.id ch.guildName,
   TranscriptLine.headerCreated ch.createdAt,
   TranscriptLine.separator]

/-- generate_text_transcript (lines 235-266): start from the header and
walk the history oldest-first, appending each message's lines. -/
def generateTextTranscript (ch : TextChannel) : List TranscriptLine :=
  ch.history.foldl (fun acc m => acc ++ msgLines m) (headerLines ch)

/-- Transcript artifact filename `f"{channel.name}-{channel.id}.txt"`. -/
def transcriptName (ch : TextChannel) : String :=
  ch.name ++ "-" ++ toString ch.id ++ ".txt"

/-- Concatenation of per-message line blocks in history order. -/
def linesOfHistory : List Message → List TranscriptLine
  | [] => []
  | m :: ms => msgLines m ++ linesOfHistory ms

/-- Content units a message contributes to the transcript: one per embed
block, one for non-empty text, one per attachment. -/
def unitCount (m : Message) : Nat :=
  m.embeds.length + (if m.content.data.isEmpty then 0 else 1) + m.attachments.length

/-- Message timestamp carried by a body line (header lines yield 0; they
never occur in a message block). -/
def lineTs : TranscriptLine → Nat
  | TranscriptLine.embedLine ts _ _ _ _ => ts
  | TranscriptLine.textLine ts _ _ => ts
  | TranscriptLine.attachmentLine ts _ _ => ts
  | _ => 0

lemma foldl_append_lines (ms : List Message) :
    ∀ acc : List TranscriptLine,
      ms.foldl (fun a m => a ++ msgLines m) acc = acc ++ linesOfHistory ms := by
  induction ms with
  | nil => intro acc; simp [linesOfHistory]
  | cons m rest ih => intro acc; simp [linesOfHistory, ih, List.append_assoc]

lemma embedLinesFrom_length (m : Message) :
    ∀ i es, (embedLinesFrom m i es).length = es.length := by
  intro i es
  induction es generalizing i with
  | nil => simp [embedLinesFrom]
  | cons e es ih => simp [embedLinesFrom, ih]

lemma msgLines_length (m : Message) : (msgLines m).length = unitCount m := by
  unfold msgLines unitCount
  by_cases he : m.embeds.isEmpty <;> by_cases hc : m.content.data.isEmpty <;>
    by_cases ha : m.attachments.isEmpty <;>
    simp_all [embedLinesFrom_length, List.isEmpty_iff] <;> omega

lemma linesOfHistory_length (ms : List Message) :
    (linesOfHistory ms).length = (ms.map unitCount).sum := by
  induction ms with
  | nil => simp [linesOfHistory]
  | cons m rest ih => simp [linesOfHistory, msgLines_length, ih]

lemma lineTs_embedLinesFrom (m : Message) :
    ∀ i es l, l ∈ embedLinesFrom m i es → lineTs l = m.createdAt := by
  intro i es
  induction es generalizing i with
  | nil => intro l hl; simp [embedLinesFrom] at hl
  | cons e es ih =>
    intro l hl
    simp [embedLinesFrom] at hl
    rcases hl with h | h
    · subst h; rfl
    · exact ih _ _ h

lemma lineTs_msgLines (m : Message) :
    ∀ l ∈ msgLines m, lineTs l = m.createdAt := by
  intro l hl
  unfold msgLines at hl
  simp only [List.mem_append] at hl
  rcases hl with (h | h) | h
  · by_cases he : m.embeds.isEmpty
    · simp [he] at h
    · simp [he] at h
      exact lineTs_embedLinesFrom m 1 m.embeds l h
  · by_cases hc : m.content.data.isEmpty
    · simp [hc] at h
    · simp [hc] at h
      subst h; rfl
  · by_cases ha : m.attachments.isEmpty
    · simp [ha] at h
    · simp [ha] at h
      obtain ⟨a, _, hal⟩ := h
      subst hal; rfl

lemma pairwise_of_const_ts {l : List TranscriptLine} {c : Nat}
    (h : ∀ x ∈ l, lineTs x = c) :
    List.Pairwise (fun a b => lineTs a ≤ lineTs b) l := by
  induction l with
  | nil => simp
  | cons x xs ih =>
    rw [List.pairwise_cons]
    constructor
    · intro b hb
      rw [h x (by simp), h b (by simp [hb])]
    · exact ih (fun y hy => h y (by simp [hy]))

lemma pairwise_linesOfHistory (ms : List Message)
    (h : List.Pairwise (fun a b => a.createdAt ≤ b.createdAt) ms) :
    List.Pairwise (fun a b => lineTs a ≤ lineTs b) (linesOfHistory ms) := by
  induction ms with
  | nil => simp [linesOfHistory]
  | cons m rest ih =>
    rw [List.pairwise_cons] at h
    obtain ⟨hm, hrest⟩ := h
    unfold linesOfHistory
    rw [List.pairwise_append]
    refine ⟨pairwise_of_const_ts (lineTs_msgLines m), ih hrest, ?_⟩
    intro a ha b hb
    rw [lineTs_msgLines m a ha]
    have hb2 : ∃ m2 ∈ rest, b ∈ msgLines m2 := by
      clear hm hrest ih ha
      induction rest with
      | nil => simp [linesOfHistory] at hb
      | cons m2 r2 ih2 =>
        unfold linesOfHistory at hb
        rw [List.mem_append] at hb
        rcases hb with h2 | h2
        · exact ⟨m2, by simp, h2⟩
        · obtain ⟨m3, hm3, hbm3⟩ := ih2 h2
          exact ⟨m3, by simp [hm3], hbm3⟩
    obtain ⟨m2, hm2, hbm2⟩ := hb2
    rw [lineTs_msgLines m2 b hbm2]
    exact hm m2 hm2

/-- Claim C1: the transcript is the 3-line header followed by each
message's block (embed lines, then text line when non-empty, then
attachment lines) in oldest-first channel order; its length is 3 plus the
sum of the per-message content units; and when the history is
chronologically ordered, line timestamps are non-decreasing (lines of
equal timestamp keep channel order, the blocks being concatenated in
history order). -/
theorem c1_transcript_shape (ch : TextChannel)
    (hchron : List.Pairwise (fun a b => a.createdAt ≤ b.createdAt) ch.history) :
    generateTextTranscript ch = headerLines ch ++ linesOfHistory ch.history
    ∧ (generateTextTranscript ch).length = 3 + (ch.history.map unitCount).sum
    ∧ List.Pairwise (fun a b => lineTs a ≤ lineTs b) (linesOfHistory ch.history) := by
  refine ⟨foldl_append_lines _ _, ?_, pairwise_linesOfHistory _ hchron⟩
  rw [generateTextTranscript, foldl_append_lines, List.length_append,
    linesOfHistory_length]
  rfl

/-- Witness for C1: a concrete two-message history (one message with an
embed, text and two attachments; one text-only), chronologically ordered. -/
theorem c1_transcript_shape_witness :
    List.Pairwise (fun a b => a.createdAt ≤ b.createdAt)
      (TextChannel.mk 10 "ticket-alice-0001" "Guild" 5
        [Message.mk "alice" 1 6 "hi" [EmbedBlock.mk (some "T") (some "D")]
          [Attachment.mk "u1", Attachment.mk "u2"],
         Message.mk "staff" 2 7 "yo" [] []]).history
    ∧ (generateTextTranscript
        (TextChannel.mk 10 "ticket-alice-0001" "Guild" 5
          [Message.mk "alice" 1 6 "hi" [EmbedBlock.mk (some "T") (some "D")]
            [Attachment.mk "u1", Attachment.mk "u2"],
           Message.mk "staff" 2 7 "yo" [] []])).length
      = 3 + ((TextChannel.mk 10 "ticket-alice-0001" "Guild" 5
          [Message.mk "alice" 1 6 "hi" [EmbedBlock.mk (some "T") (some "D")]
            [Attachment.mk "u1", Attachment.mk "u2"],
           Message.mk "staff" 2 7 "yo" [] []]).history.map unitCount).sum := by
  constructor
  · decide
  · exact (c1_transcript_shape _ (by decide)).2.1

/-- List version of Python str.startswith: the first argument is the
candidate head. -/
def listStarts : List Char → List Char → Bool
  | [], _ => true
  | _ :: _, [] => false
  | p :: ps, c :: cs => p == c && listStarts ps cs

/-- Python `s.startswith(p)`. -/
def strStartsWith (s p : String) : Bool := listStarts p.data s.data

/-- Effective guard string of the ticket commands (lines 474/482/491/500):
`(CONFIG.get("tickets") or {}).get("ticket_prefix", "ticket")`.  The dict
default fires only when the key is absent: an empty configured string is
returned as-is. -/
def guardPfx (cfg : Config) : String :=
  match cfg.tickets with
  | some t => t.ticketPfx.getD "ticket"
  | none => "ticket"

/-- discord member mention string. -/
def mention (uid : Nat) : String := "<@" ++ toString uid ++ ">"

/-- discord role mention string. -/
def roleMention (rid : Nat) : String := "<@&" ++ toString rid ++ ">"

/-- Error taxonomy of the spec for the embedded handlers. -/
inductive SpecErr where
  | notATicketChannel : SpecErr
  | guildContextMissing : SpecErr
  | channelCreateFailed : SpecErr
  | recorderError : SpecErr
  deriving Repr, DecidableEq

/-- Externally visible operations a handler attempts, in program order. -/
inductive Effect where
  | respond : Bool → String → Effect
  | channelSend : Nat → String → Effect
  | channelSendFile : Nat → String → String → Effect
  | setPerm : Nat → Nat → PermOw → Effect
  | clearPerm : Nat → Nat → Effect
  | writeTranscript : String → List TranscriptLine → Effect
  | deleteChannel : Nat → Effect
  | createChannel : String → Option Nat → List (Principal × PermOw) → Effect
  | logError : String → Effect
  deriving Repr, DecidableEq

/-- The channel an interaction arrives in: a guild text channel or anything
else (the handlers' isinstance check). -/
inductive Chan where
  | text : TextChannel → Chan
  | other : Chan
  deriving Repr, DecidableEq

/-- A handler run: the trace of attempted effects and the result; an
`Except.error` models an exception propagating out of the handler or an
early guard return, tagged with the spec's error name. -/
abbrev HandlerRun := List Effect × Except SpecErr Unit

/-- The ephemeral guard rejection every ticket command returns on a
non-ticket channel. -/
def rejectRun : HandlerRun :=
  ([Effect.respond true "❌ Use this inside a ticket channel."],
   Except.error SpecErr.notATicketChannel)

/-- /ticket_claim (lines 471-476): guard, then a public claim notice; no
permission change. -/
def ticketClaim (cfg : Config) (chan : Chan) (actorId : Nat) : HandlerRun :=
  match chan with
  | Chan.other => rejectRun
  | Chan.text ch =>
    if strStartsWith ch.name (guardPfx cfg) then
      ([Effect.respond false ("🛠️ Ticket claimed by " ++ mention actorId ++ ".")],
       Except.ok ())
    else rejectRun

/-- Overwrite granted by /ticket_add (line 484). -/
def addedOw : PermOw :=
  { viewChannel := some true, sendMessages := some true,
    readMessageHistory := some true, attachFiles := some true,
    embedLinks := some true }

/-- /ticket_add (lines 478-485): guard, grant the target the member bundle,
then a public confirmation. -/
def ticketAdd (cfg : Config) (chan : Chan) (targetId : Nat) : HandlerRun :=
  match chan with
  | Chan.other => rejectRun
  | Chan.text ch =>
    if strStartsWith ch.name (guardPfx cfg) then
      ([Effect.setPerm ch.id targetId addedOw,
        Effect.respond false ("✅ Added " ++ mention targetId ++ " to this ticket.")],
       Except.ok ())
    else rejectRun

/-- /ticket_remove (lines 487-494): guard, clear the target's overwrite
(`overwrite=None`), then a public confirmation. -/
def ticketRemove (cfg : Config) (chan : Chan) (targetId : Nat) : HandlerRun :=
  match chan with
  | Chan.other => rejectRun
  | Chan.text ch =>
    if strStartsWith ch.name (guardPfx cfg) then
      ([Effect.clearPerm ch.id targetId,
        Effect.respond false ("✅ Removed " ++ mention targetId ++ " from this ticket.")],
       Except.ok ())
    else rejectRun

/-- Failure injection for the fallible platform calls of /ticket_close.
`ticketSendOk` is carried for completeness: the in-ticket send is wrapped in
`try/except: pass`, so its outcome is invisible in the trace. -/
structure CloseEnv where
  genOk : Bool := true
  archiveSendOk : Bool := true
  ticketSendOk : Bool := true
  deleteOk : Bool := true
  deriving Repr, DecidableEq

/-- Close-notice embed text (lines 513-518). -/
def closeNoticeText (ch : TextChannel) (actorId : Nat) (reason : Option String) : String :=
  "Ticket **#" ++ ch.name ++ "** closed by " ++ mention actorId ++ ".\n"
    ++ (match reason with
        | some r => "**Reason:** " ++ r
        | none => "")

/-- /ticket_close (lines 496-536): guard; ephemeral closing notice;
transcript generation (uncaught, so a failure aborts the handler);
best-effort archive delivery (failure logged) when the transcripts channel
resolves to a text channel; best-effort in-ticket delivery (failure passed
silently); finally the deletion attempt (failure logged). -/
def ticketClose (cfg : Config) (getChannel : Nat → Option Chan) (env : CloseEnv)
    (chan : Chan) (actorId : Nat) (reason : Option String) : HandlerRun :=
  match chan with
  | Chan.other => rejectRun
  | Chan.text ch =>
    if strStartsWith ch.name (guardPfx cfg) then
      let ack := Effect.respond true "🔒 Closing ticket and generating transcript..."
      if env.genOk then
        let path := transcriptName ch
        let wr := Effect.writeTranscript path (generateTextTranscript ch)
        let notice := closeNoticeText ch actorId reason
        let archiveEffs :=
          match (cfg.tickets.bind fun t => t.transcriptsChannelId).bind getChannel with
          | some (Chan.text tc) =>
            [Effect.channelSendFile tc.id notice path]
              ++ (if env.archiveSendOk then [] else [Effect.logError "Failed to post transcript"])
          | _ => []
        let delEffs :=
          [Effect.deleteChannel ch.id]
            ++ (if env.deleteOk then [] else [Effect.logError "Failed to delete channel"])
        ([ack, wr] ++ archiveEffs ++ [Effect.channelSendFile ch.id notice path] ++ delEffs,
         Except.ok ())
      else ([ack], Except.error SpecErr.recorderError)
    else rejectRun

/-- The guild context of an interaction: guild name plus the role and
category resolvers the source calls. -/
structure Guild where
  name : String
  getRole : Nat → Option Nat
  getCategory : Nat → Option Nat

/-- Failure injection for channel creation in create_ticket_channel, plus
the id the platform gives the created channel. -/
structure OpenEnv where
  createOk : Bool := true
  newChannelId : Nat := 0
  deriving Repr, DecidableEq

/-- create_ticket_channel (lines 185-233): guild guard (ephemeral rejection
when absent), category and support-role resolution, channel name and
overwrites, the creation attempt (whose failure is uncaught and propagates),
then the intro embed, the mention line, and the ephemeral confirmation. -/
def openTicket (cfg : Config) (guild : Option Guild) (env : OpenEnv)
    (openerName : String) (openerId : Nat) (interactionId : Nat) (reason : String) :
    HandlerRun :=
  match guild with
  | none =>
    ([Effect.respond true "❌ Tickets must be used in a server."],
     Except.error SpecErr.guildContextMissing)
  | some g =>
    let t := cfg.tickets
    let category := (t.bind fun x => x.categoryId).bind g.getCategory
    let supportRole := resolveSupportRole t g.getRole
    let nm := ticketChannelName t openerName interactionId
    let createEff := Effect.createChannel nm category (computeOverwrites openerId supportRole)
    if env.createOk then
      ([createEff,
        Effect.channelSend env.newChannelId
          ("**Ticket opened by " ++ mention openerId ++ "**\n\n**Reason:**\n" ++ reason),
        Effect.channelSend env.newChannelId
          (mention openerId
            ++ (match supportRole with
                | some r => " " ++ roleMention r
                | none => "")),
        Effect.respond true "✅ Ticket created"],
       Except.ok ())
    else ([createEff], Except.error SpecErr.channelCreateFailed)

/-- Whether an effect acknowledges the interaction to the invoking actor. -/
def isRespond : Effect → Bool
  | Effect.respond _ _ => true
  | _ => false

/-- Platform interaction contract (the external collaborator, not repo
code): an error that propagates out of a handler is surfaced to the
invoking actor by the platform only when the interaction has not yet been
acknowledged; once a response was sent, a later propagated error is only
logged and the actor sees nothing. -/
def actorSeesFailure (run : HandlerRun) : Bool :=
  match run with
  | (effs, Except.error _) => !(effs.any isRespond)
  | (_, Except.ok _) => false

/-- External platform operations attempted by a handler (acknowledgements
and log lines excluded). -/
def isAttempt : Effect → Bool
  | Effect.respond _ _ => false
  | Effect.logError _ => false
  | _ => true

/-- Transcript delivery or channel deletion. -/
def isDeliveryOrDelete : Effect → Bool
  | Effect.channelSend _ _ => true
  | Effect.channelSendFile _ _ _ => true
  | Effect.deleteChannel _ => true
  | _ => false

/-- A transcript write. -/
def isWriteT : Effect → Bool
  | Effect.writeTranscript _ _ => true
  | _ => false

/-- A channel-creation attempt. -/
def isCreateAtt : Effect → Bool
  | Effect.createChannel _ _ _ => true
  | _ => false

/-- No delivery and no deletion occurs before the first transcript write in
the trace. -/
def writeFirst : List Effect → Bool
  | [] => true
  | e :: es =>
    if isWriteT e then true
    else if isDeliveryOrDelete e then false
    else writeFirst es

/-- Sample tickets table used by concrete witnesses. -/
def sampleTickets : TicketsCfg :=
  { ticketPfx := some "ticket", transcriptsChannelId := some 5 }

/-- Sample configuration used by concrete witnesses. -/
def sampleCfg : Config := { tickets := some sampleTickets }

/-- Sample ticket channel with a one-message history. -/
def sampleChan : TextChannel :=
  { id := 9, name := "ticket-alice-0001", guildName := "G", createdAt := 0,
    history := [Message.mk "alice" 1 6 "hi" [] [Attachment.mk "u1"]] }

/-- Sample archive channel. -/
def archiveChan : TextChannel :=
  { id := 5, name := "transcripts", guildName := "G", createdAt := 0 }

/-- Sample channel resolver: id 5 is the archive text channel. -/
def sampleGetChannel : Nat → Option Chan :=
  fun n => if n == 5 then some (Chan.text archiveChan) else none

/-- Sample non-ticket channel. -/
def plainChan : TextChannel :=
  { id := 3, name := "general", guildName := "G", createdAt := 0 }

/-- Sample guild resolving no roles and no categories. -/
def sampleGuild : Guild :=
  { name := "G", getRole := fun _ => none, getCategory := fun _ => none }

/-- Claim C5: each of claim/add/remove/close invoked on a text channel
whose name does not start with the configured ticket prefix returns the
single ephemeral NotATicketChannel rejection and produces no side effects:
the rejection trace contains no external operation (no permission change,
no transcript write, no channel message, no deletion). -/
theorem c5_guard_rejects (cfg : Config) (getChannel : Nat → Option Chan)
    (env : CloseEnv) (ch : TextChannel) (actorId targetId : Nat)
    (reason : Option String)
    (hguard : strStartsWith ch.name (guardPfx cfg) = false) :
    ticketClaim cfg (Chan.text ch) actorId = rejectRun
    ∧ ticketAdd cfg (Chan.text ch) targetId = rejectRun
    ∧ ticketRemove cfg (Chan.text ch) targetId = rejectRun
    ∧ ticketClose cfg getChannel env (Chan.text ch) actorId reason = rejectRun
    ∧ rejectRun.1.all (fun e => !(isAttempt e)) = true := by
  refine ⟨?_, ?_, ?_, ?_, by decide⟩ <;>
    simp [ticketClaim, ticketAdd, ticketRemove, ticketClose, hguard]

/-- Witness for C5 on the channel "general" with prefix "ticket". -/
theorem c5_guard_rejects_witness :
    strStartsWith plainChan.name (guardPfx sampleCfg) = false
    ∧ (ticketClaim sampleCfg (Chan.text plainChan) 1 = rejectRun
      ∧ ticketAdd sampleCfg (Chan.text plainChan) 2 = rejectRun
      ∧ ticketRemove sampleCfg (Chan.text plainChan) 2 = rejectRun
      ∧ ticketClose sampleCfg sampleGetChannel {} (Chan.text plainChan) 1 none = rejectRun
      ∧ rejectRun.1.all (fun e => !(isAttempt e)) = true) :=
  ⟨by decide,
   c5_guard_rejects sampleCfg sampleGetChannel {} plainChan 1 2 none (by decide)⟩

/-- Claim C3: once the guard passes and transcript generation succeeds,
close performs the transcript write before any transcript delivery and
before the deletion; both deliveries are best-effort (the handler still
completes normally and the sequence of attempted external operations is
unchanged by their failures); and the deletion is the last external
operation attempted. -/
theorem c3_close_ordering (cfg : Config) (getChannel : Nat → Option Chan)
    (env : CloseEnv) (ch : TextChannel) (actorId : Nat) (reason : Option String)
    (hguard : strStartsWith ch.name (guardPfx cfg) = true)
    (hgen : env.genOk = true) :
    (ticketClose cfg getChannel env (Chan.text ch) actorId reason).2 = Except.ok ()
    ∧ writeFirst (ticketClose cfg getChannel env (Chan.text ch) actorId reason).1 = true
    ∧ ((ticketClose cfg getChannel env (Chan.text ch) actorId reason).1.filter
          isAttempt).reverse.head? = some (Effect.deleteChannel ch.id)
    ∧ (ticketClose cfg getChannel env (Chan.text ch) actorId reason).1.filter isAttempt
        = (ticketClose cfg getChannel { genOk := true } (Chan.text ch) actorId
            reason).1.filter isAttempt := by
  rcases env with ⟨g, a, ts, d⟩
  replace hgen : g = true := hgen
  subst hgen
  rcases hm : (cfg.tickets.bind fun t => t.transcriptsChannelId).bind getChannel with _ | c
  · cases a <;> cases d <;>
      simp [ticketClose, hguard, hm, writeFirst, isWriteT, isDeliveryOrDelete, isAttempt]
  · cases c with
    | text tc =>
      cases a <;> cases d <;>
        simp [ticketClose, hguard, hm, writeFirst, isWriteT, isDeliveryOrDelete, isAttempt]
    | other =>
      cases a <;> cases d <;>
        simp [ticketClose, hguard, hm, writeFirst, isWriteT, isDeliveryOrDelete, isAttempt]

/-- Witness for C3 with archive delivery, in-ticket delivery and deletion
all failing. -/
theorem c3_close_ordering_witness :
    strStartsWith sampleChan.name (guardPfx sampleCfg) = true
    ∧ (CloseEnv.mk true false false false).genOk = true
    ∧ ((ticketClose sampleCfg sampleGetChannel (CloseEnv.mk true false false false)
          (Chan.text sampleChan) 1 (some "resolved")).2 = Except.ok ()
      ∧ writeFirst (ticketClose sampleCfg sampleGetChannel
          (CloseEnv.mk true false false false)
          (Chan.text sampleChan) 1 (some "resolved")).1 = true
      ∧ ((ticketClose sampleCfg sampleGetChannel (CloseEnv.mk true false false false)
            (Chan.text sampleChan) 1 (some "resolved")).1.filter
            isAttempt).reverse.head? = some (Effect.deleteChannel sampleChan.id)
      ∧ (ticketClose sampleCfg sampleGetChannel (CloseEnv.mk true false false false)
          (Chan.text sampleChan) 1 (some "resolved")).1.filter isAttempt
          = (ticketClose sampleCfg sampleGetChannel { genOk := true }
              (Chan.text sampleChan) 1 (some "resolved")).1.filter isAttempt) :=
  ⟨by decide, rfl,
   c3_close_ordering sampleCfg sampleGetChannel (CloseEnv.mk true false false false)
     sampleChan 1 (some "resolved") (by decide) rfl⟩

/-- Claim C4, amended: when transcript recording fails, close aborts
before attempting any delivery and before deletion — the only effect is
the pre-failure acknowledgement, so the channel is preserved — and the
failure propagates out of the handler as a RecorderError, but it is NOT
surfaced to the invoking actor: the interaction was already acknowledged,
so the platform shows nothing. -/
theorem c4_recorder_failure_aborts (cfg : Config) (getChannel : Nat → Option Chan)
    (env : CloseEnv) (ch : TextChannel) (actorId : Nat) (reason : Option String)
    (hguard : strStartsWith ch.name (guardPfx cfg) = true)
    (hgen : env.genOk = false) :
    ticketClose cfg getChannel env (Chan.text ch) actorId reason
      = ([Effect.respond true "🔒 Closing ticket and generating transcript..."],
         Except.error SpecErr.recorderError)
    ∧ actorSeesFailure (ticketClose cfg getChannel env (Chan.text ch) actorId reason)
        = false := by
  rcases env with ⟨g, a, ts, d⟩
  replace hgen : g = false := hgen
  subst hgen
  constructor
  · simp [ticketClose, hguard]
  · simp [ticketClose, hguard, actorSeesFailure, isRespond]

/-- Witness for the amended C4 at a concrete failing-recorder close. -/
theorem c4_recorder_failure_aborts_witness :
    strStartsWith sampleChan.name (guardPfx sampleCfg) = true
    ∧ (CloseEnv.mk false true true true).genOk = false
    ∧ (ticketClose sampleCfg sampleGetChannel (CloseEnv.mk false true true true)
          (Chan.text sampleChan) 1 none
        = ([Effect.respond true "🔒 Closing ticket and generating transcript..."],
           Except.error SpecErr.recorderError)
      ∧ actorSeesFailure (ticketClose sampleCfg sampleGetChannel
          (CloseEnv.mk false true true true) (Chan.text sampleChan) 1 none) = false) :=
  ⟨by decide, rfl,
   c4_recorder_failure_aborts sampleCfg sampleGetChannel
     (CloseEnv.mk false true true true) sampleChan 1 none (by decide) rfl⟩

/-- Counterexample to C4 as stated: at a concrete close whose recorder
fails, the handler aborts with a RecorderError, but the failure is not
surfaced to the invoking actor — the actor-visible output is exactly the
pre-failure acknowledgement and no failure notice exists, refuting the
claim's "surfaced to the invoking actor as a RecorderError" conjunct. -/
theorem c4_recorder_failure_not_surfaced_cex :
    (ticketClose sampleCfg sampleGetChannel (CloseEnv.mk false true true true)
        (Chan.text sampleChan) 1 none).2 = Except.error SpecErr.recorderError
    ∧ actorSeesFailure (ticketClose sampleCfg sampleGetChannel
        (CloseEnv.mk false true true true) (Chan.text sampleChan) 1 none) = false
    ∧ (ticketClose sampleCfg sampleGetChannel (CloseEnv.mk false true true true)
        (Chan.text sampleChan) 1 none).1
      = [Effect.respond true "🔒 Closing ticket and generating transcript..."] :=
  ⟨rfl, rfl, rfl⟩

/-- Claim C7: open invoked without a guild context fails with
GuildContextMissing as an ephemeral notice and creates no channel; a
failing external channel creation propagates as ChannelCreateFailed with
exactly one creation attempt (no retry), and — the interaction being still
unacknowledged — the platform surfaces the failure to the invoking
actor. -/
theorem c7_open_errors (cfg : Config) (g : Guild) (env : OpenEnv)
    (openerName : String) (openerId iid : Nat) (reason : String)
    (hfail : env.createOk = false) :
    openTicket cfg none env openerName openerId iid reason
      = ([Effect.respond true "❌ Tickets must be used in a server."],
         Except.error SpecErr.guildContextMissing)
    ∧ (openTicket cfg none env openerName openerId iid reason).1.filter isCreateAtt = []
    ∧ (openTicket cfg (some g) env openerName openerId iid reason).2
        = Except.error SpecErr.channelCreateFailed
    ∧ ((openTicket cfg (some g) env openerName openerId iid reason).1.filter
        isCreateAtt).length = 1
    ∧ actorSeesFailure (openTicket cfg (some g) env openerName openerId iid reason)
        = true := by
  rcases env with ⟨c, nid⟩
  replace hfail : c = false := hfail
  subst hfail
  refine ⟨rfl, by simp [openTicket, isCreateAtt], ?_, ?_, ?_⟩
  · simp [openTicket]
  · simp [openTicket, isCreateAtt]
  · simp [openTicket, actorSeesFailure, isRespond]

/-- Witness for C7 with a concrete guild and failing creation. -/
theorem c7_open_errors_witness :
    (OpenEnv.mk false 0).createOk = false
    ∧ (openTicket sampleCfg none (OpenEnv.mk false 0) "alice" 1 42 "help"
        = ([Effect.respond true "❌ Tickets must be used in a server."],
           Except.error SpecErr.guildContextMissing)
      ∧ (openTicket sampleCfg none (OpenEnv.mk false 0) "alice" 1 42 "help").1.filter
          isCreateAtt = []
      ∧ (openTicket sampleCfg (some sampleGuild) (OpenEnv.mk false 0) "alice" 1 42
          "help").2 = Except.error SpecErr.channelCreateFailed
      ∧ ((openTicket sampleCfg (some sampleGuild) (OpenEnv.mk false 0) "alice" 1 42
          "help").1.filter isCreateAtt).length = 1
      ∧ actorSeesFailure (openTicket sampleCfg (some sampleGuild) (OpenEnv.mk false 0)
          "alice" 1 42 "help") = true) :=
  ⟨rfl, c7_open_errors sampleCfg sampleGuild (OpenEnv.mk false 0) "alice" 1 42 "help" rfl⟩

/-- Claim C10: with the ticket prefix configured as the empty string, the
command guard's effective string is "" — every text channel name passes
the guard, e.g. /ticket_claim succeeds anywhere — while open's naming
falls back to "ticket"; the two effective strings differ. -/
theorem c10_empty_guard_vs_naming (t : TicketsCfg) (brand : Option String)
    (getChannel : Nat → Option Chan) (env : CloseEnv)
    (ch : TextChannel) (actorId targetId : Nat)
    (hp : t.ticketPfx = some "") (hgen : env.genOk = true) :
    guardPfx (Config.mk (some t) brand) = ""
    ∧ (∀ s : String, strStartsWith s (guardPfx (Config.mk (some t) brand)) = true)
    ∧ (ticketClaim (Config.mk (some t) brand) (Chan.text ch) actorId).2 = Except.ok ()
    ∧ (ticketAdd (Config.mk (some t) brand) (Chan.text ch) targetId).2 = Except.ok ()
    ∧ (ticketRemove (Config.mk (some t) brand) (Chan.text ch) targetId).2 = Except.ok ()
    ∧ (ticketClose (Config.mk (some t) brand) getChannel env (Chan.text ch) actorId
        none).2 = Except.ok ()
    ∧ namePfxOf (some t) = "ticket"
    ∧ guardPfx (Config.mk (some t) brand) ≠ namePfxOf (some t) := by
  have h1 : guardPfx (Config.mk (some t) brand) = "" := by
    simp [guardPfx, hp]
  have h2 : ∀ s : String, strStartsWith s (guardPfx (Config.mk (some t) brand)) = true := by
    intro s
    rw [h1]
    rfl
  have h4 : namePfxOf (some t) = "ticket" := by
    simp [namePfxOf, pyOrStr, hp]
    decide
  refine ⟨h1, h2, ?_, ?_, ?_, ?_, h4, ?_⟩
  · simp [ticketClaim, h2 ch.name]
  · simp [ticketAdd, h2 ch.name]
  · simp [ticketRemove, h2 ch.name]
  · rcases hm : (Config.mk (some t) brand).tickets.bind
      (fun x => x.transcriptsChannelId) with _ | cid
    · simp [ticketClose, h2 ch.name, hgen, hm]
    · simp [ticketClose, h2 ch.name, hgen, hm]
  · rw [h1, h4]
    decide

/-- Witness for C10 at the concrete empty-string prefix. -/
theorem c10_empty_guard_vs_naming_witness :
    (TicketsCfg.mk none none none (some "")).ticketPfx = some ""
    ∧ (CloseEnv.mk true true true true).genOk = true
    ∧ (guardPfx (Config.mk (some (TicketsCfg.mk none none none (some ""))) none) = ""
      ∧ (∀ s : String, strStartsWith s (guardPfx (Config.mk
          (some (TicketsCfg.mk none none none (some ""))) none)) = true)
      ∧ (ticketClaim (Config.mk (some (TicketsCfg.mk none none none (some ""))) none)
          (Chan.text plainChan) 1).2 = Except.ok ()
      ∧ (ticketAdd (Config.mk (some (TicketsCfg.mk none none none (some ""))) none)
          (Chan.text plainChan) 2).2 = Except.ok ()
      ∧ (ticketRemove (Config.mk (some (TicketsCfg.mk none none none (some ""))) none)
          (Chan.text plainChan) 2).2 = Except.ok ()
      ∧ (ticketClose (Config.mk (some (TicketsCfg.mk none none none (some ""))) none)
          sampleGetChannel (CloseEnv.mk true true true true) (Chan.text plainChan) 1
          none).2 = Except.ok ()
      ∧ namePfxOf (some (TicketsCfg.mk none none none (some ""))) = "ticket"
      ∧ guardPfx (Config.mk (some (TicketsCfg.mk none none none (some ""))) none)
          ≠ namePfxOf (some (TicketsCfg.mk none none none (some "")))) :=
  ⟨rfl, rfl,
   c10_empty_guard_vs_naming (TicketsCfg.mk none none none (some "")) none
     sampleGetChannel (CloseEnv.mk true true true true) plainChan 1 2 rfl rfl⟩

end RustyTiger
